import Mathlib

set_option maxRecDepth 200000

/-!
Verification development for the `thinking` backend: a shallow embedding of the
multi-provider streaming orchestration core (client registry, streaming call
adapters, prompt composers, summary fallback, language detection) together with
theorems settling the testable properties of the specification against the code.
-/

/-- A chat message, as in `backend/models.py` (`Message: {role, content}`). -/
structure Message where
  role : String
  content : String
deriving DecidableEq, Repr

/-- One Server-Sent-Event record emitted by a streaming call generator in
`backend/utils/model_helpers.py`.  The generators yield
`data: <json>` lines whose JSON payload has fields content and model,
optionally with an error or done field set to True; the `error`/`done` booleans record
the presence of those fields. -/
structure StreamEvent where
  content : String
  model : String
  error : Bool
  done : Bool
deriving DecidableEq, Repr

/-- An ordinary incremental-content event (content c, model p). -/
def contentEvent (provider s : String) : StreamEvent :=
  { content := s, model := provider, error := false, done := false }

/-- The in-band error event a generator yields when the upstream call raises:
content "Error: " ++ msg, model p, with the error field set. -/
def errorEvent (provider msg : String) : StreamEvent :=
  { content := "Error: " ++ msg, model := provider, error := true, done := false }

/-- The terminal event: empty content, model p, with the done field set. -/
def doneEvent (provider : String) : StreamEvent :=
  { content := "", model := provider, error := false, done := true }

/-- The per-chunk body of the `async for chunk in response` loop of every
`stream_response_generator` in `backend/utils/model_helpers.py`
(`call_openai`, `call_grok`, `call_qwen`, `call_deepseek`, `call_glm`,
`call_doubao`): a chunk is modelled by its delta content, `none` when the
chunk has no usable delta content (missing `choices`/`delta`/`content`
attribute or a `None` content) and `some s` when the delta content is the
string `s`.  A chunk contributes an event exactly when its content is truthy
(present and non-empty), mirroring the guard that tests hasattr on the delta
and the truthiness of its content (and the equivalent guard in `call_doubao`). -/
def deltaEvents (provider : String) (chunks : List (Option String)) : List StreamEvent :=
  chunks.filterMap (fun c =>
    match c with
    | some s => if s = "" then none else some (contentEvent provider s)
    | none => none)

/-- Embedding of the `stream_response_generator` inner coroutine shared (up to
the provider literal) by `call_openai`, `call_grok`, `call_qwen`,
`call_deepseek`, `call_glm` and `call_doubao` in
`backend/utils/model_helpers.py` when `use_streaming=True`.

The upstream behaviour is: the chunk source produces the chunks in `chunks`
and then either is exhausted normally (`exc = none`) or raises an exception
whose string rendering is `msg` (`exc = some msg`); an exception raised
before or during `client.chat.completions.create`, or mid-iteration, is the
case where `chunks` is the prefix processed before the raise.  On normal
exhaustion the generator emits the content events followed by the final done
event; on an exception the `except` block emits one error event followed by
the done event. -/
def stream_response_generator (provider : String) (chunks : List (Option String))
    (exc : Option String) : List StreamEvent :=
  match exc with
  | none => deltaEvents provider chunks ++ [doneEvent provider]
  | some msg => deltaEvents provider chunks ++ [errorEvent provider msg, doneEvent provider]

/-- The fixed provider set of the backend (`ProviderType` in
`backend/utils/model_helpers.py`). -/
def providers : List String := ["openai", "grok", "qwen", "deepseek", "glm", "doubao"]

theorem mem_deltaEvents {provider : String} {chunks : List (Option String)}
    {e : StreamEvent} (h : e ∈ deltaEvents provider chunks) :
    e.error = false ∧ e.done = false ∧ e.content ≠ "" := by
  rcases List.mem_filterMap.mp h with ⟨c, _, hc⟩
  rcases c with _ | s
  · simp at hc
  · by_cases hs : s = "" <;> simp [hs, contentEvent] at hc
    rcases hc with rfl
    simp [contentEvent, hs]

theorem deltaEvents_filter_done (provider : String) (chunks : List (Option String)) :
    (deltaEvents provider chunks).filter (fun e => e.done) = [] := by
  rw [List.filter_eq_nil_iff]
  intro e he
  simp [(mem_deltaEvents he).2.1]

theorem deltaEvents_filter_error (provider : String) (chunks : List (Option String)) :
    (deltaEvents provider chunks).filter (fun e => e.error) = [] := by
  rw [List.filter_eq_nil_iff]
  intro e he
  simp [(mem_deltaEvents he).1]

theorem deltaEvents_length (provider : String) (chunks : List (Option String)) :
    (deltaEvents provider chunks).length
      = (chunks.filter (fun c =>
          match c with
          | some s => s ≠ ""
          | none => false)).length := by
  induction chunks with
  | nil => rfl
  | cons c rest ih =>
    rcases c with _ | s
    · simpa [deltaEvents, List.filterMap_cons] using ih
    · by_cases hs : s = "" <;>
        simp [deltaEvents, List.filterMap_cons, hs, List.filter_cons] at ih ⊢ <;>
        simpa using ih

/-- C1: for every streaming call made through a per-provider call function
(`call_openai`, `call_grok`, `call_qwen`, `call_deepseek`, `call_glm`,
`call_doubao` with `use_streaming=True`) and every behaviour of the upstream
chunk source — normal exhaustion or an exception raised at any point — the
emitted event sequence is zero or more content events followed by exactly one
terminal done event, with exactly one error event immediately before the done
event in the failure case and no error event otherwise. -/
theorem streaming_call_terminal_shape (provider : String) (chunks : List (Option String))
    (exc : Option String) :
    ∃ cs : List StreamEvent,
      stream_response_generator provider chunks exc
        = cs ++ (match exc with
                 | none => [doneEvent provider]
                 | some m => [errorEvent provider m, doneEvent provider])
      ∧ (∀ e ∈ cs, e.error = false ∧ e.done = false)
      ∧ ((stream_response_generator provider chunks exc).filter (fun e => e.done)).length = 1
      ∧ ((stream_response_generator provider chunks exc).filter (fun e => e.error)).length
          = (if exc.isSome then 1 else 0) := by
  refine ⟨deltaEvents provider chunks, ?_, ?_, ?_, ?_⟩
  · cases exc <;> rfl
  · intro e he
    exact ⟨(mem_deltaEvents he).1, (mem_deltaEvents he).2.1⟩
  · cases exc <;>
      simp [stream_response_generator, List.filter_append,
        deltaEvents_filter_done, doneEvent, errorEvent]
  · cases exc <;>
      simp [stream_response_generator, List.filter_append,
        deltaEvents_filter_error, doneEvent, errorEvent]

/-- Closed instance of `streaming_call_terminal_shape`: a two-chunk stream that
then raises, on the openai call function. -/
theorem streaming_call_terminal_shape_witness :
    ∃ cs : List StreamEvent,
      stream_response_generator "openai" [some "Hello", none, some " world"] (some "boom")
        = cs ++ [errorEvent "openai" "boom", doneEvent "openai"]
      ∧ (∀ e ∈ cs, e.error = false ∧ e.done = false)
      ∧ ((stream_response_generator "openai" [some "Hello", none, some " world"]
            (some "boom")).filter (fun e => e.done)).length = 1
      ∧ ((stream_response_generator "openai" [some "Hello", none, some " world"]
            (some "boom")).filter (fun e => e.error)).length
          = (if (some "boom").isSome then 1 else 0) :=
  streaming_call_terminal_shape "openai" [some "Hello", none, some " world"] (some "boom")

/-- C9: in every per-provider streaming generator, an upstream chunk whose delta
content is missing, `None`, or the empty string produces no output event at
all (the event count is the count of chunks with truthy content, plus the
terminal events), every emitted event carrying neither the error flag nor the
done flag has non-empty content, and the done event is the only event with
empty content. -/
theorem streaming_content_nonempty (provider : String) (chunks : List (Option String))
    (exc : Option String) :
    (∀ e ∈ stream_response_generator provider chunks exc,
        (e.error = false ∧ e.done = false → e.content ≠ "") ∧ (e.content = "" ↔ e.done = true))
    ∧ (stream_response_generator provider chunks exc).length
        = (chunks.filter (fun c =>
            match c with
            | some s => s ≠ ""
            | none => false)).length + (if exc.isSome then 2 else 1) := by
  constructor
  · intro e he
    have hsplit : e ∈ deltaEvents provider chunks
        ∨ e ∈ (match exc with
               | none => [doneEvent provider]
               | some m => [errorEvent provider m, doneEvent provider]) := by
      cases exc <;> simpa [stream_response_generator] using he
    rcases hsplit with hd | ht
    · rcases mem_deltaEvents hd with ⟨he1, he2, he3⟩
      exact ⟨fun _ => he3, by simp [he2, he3]⟩
    · cases exc with
      | none =>
        simp only [List.mem_singleton] at ht
        subst ht
        simp [doneEvent]
      | some m =>
        rcases List.mem_cons.mp ht with rfl | ht'
        · refine ⟨by simp [errorEvent], ?_⟩
          have : ("Error: " ++ m) ≠ "" := by
            intro hcontra
            have : ("Error: " ++ m).data = [] := by rw [hcontra]
            simp [String.data_append] at this
          simp [errorEvent, this]
        · simp only [List.mem_singleton] at ht'
          subst ht'
          simp [doneEvent]
  · cases exc <;>
      simp [stream_response_generator, deltaEvents_length]

/-- Closed instance of `streaming_content_nonempty`: the empty-string and
missing-content chunks of a concrete stream contribute no events. -/
theorem streaming_content_nonempty_witness :
    (stream_response_generator "glm" [some "Hi", none, some "", some "there"] none).length
      = 2 + 1 := by
  have h := (streaming_content_nonempty "glm" [some "Hi", none, some "", some "there"] none).2
  simpa using h

/-- A character in the CJK range tested by `detect_language` in
`backend/utils/language_utils.py` (0x4e00 <= ord(char) <= 0x9fff). -/
def isChineseChar (c : Char) : Bool :=
  decide (0x4e00 ≤ c.toNat) && decide (c.toNat ≤ 0x9fff)

/-- `detect_language` from `backend/utils/language_utils.py`: counts characters
in the CJK range and returns "zh" when they make up more than 10% of the text.
The source compares `chinese_chars / max(len(text), 1) > 0.1` in
double-precision floats; for any text of length below 2^53 the comparison
agrees exactly with the rational comparison `10 * chinese_chars > max len 1`
(the gap between the double literal `0.1` and 1/10 is below 1/(10*len) for
all such lengths), which is how it is embedded here. -/
def detect_language (text : String) : String :=
  if 10 * (text.data.filter isChineseChar).length > max text.length 1 then "zh" else "en"

/-- `detect_language_from_messages` from `backend/routers/chat.py`: collects
the contents of all messages whose role is "user" and applies
`detect_language` to the last one, returning the default when there is none. -/
def detect_language_from_messages (messages : List Message)
    (defaultLanguage : String) : String :=
  let userMessages := (messages.filter (fun m => m.role = "user")).map Message.content
  match userMessages.getLast? with
  | some last => detect_language last
  | none => defaultLanguage

/-- The language selection performed identically by each direct-chat endpoint
(`chat_openai` … `chat_glm` in `backend/routers/chat.py`): the request
language is used unchanged unless it equals "en" (the default), in which case
it is auto-detected from the messages. -/
def effective_language (requestLanguage : String) (messages : List Message) : String :=
  if requestLanguage = "en" then detect_language_from_messages messages "en"
  else requestLanguage

/-- Specification-side reading of claim C10, written from the words of the
claim: when the language field of the request equals "en" the effective language is
auto-detected from the most recent user message — "zh" exactly when more than
10% of its characters lie in the CJK range U+4E00–U+9FFF, else "en", and "en"
when the conversation contains no user message — whereas any other language
field is used unchanged. -/
def languageSelectionSpec (requestLanguage : String) (messages : List Message) : String :=
  if requestLanguage = "en" then
    match ((messages.filter (fun m => m.role = "user")).map Message.content).getLast? with
    | some last =>
        if 10 * (last.data.filter
            (fun c => decide (0x4e00 ≤ c.toNat) && decide (c.toNat ≤ 0x9fff))).length
            > last.length then "zh" else "en"
    | none => "en"
  else requestLanguage

/-- C10: at every direct-chat endpoint, when the language field of the request
equals "en" the effective language is auto-detected from the most recent user
message ("zh" exactly when more than 10% of its characters lie in
U+4E00–U+9FFF, "en" otherwise, and "en" when there is no user message), and a
request whose language field is not "en" is used unchanged with no detection. -/
theorem chat_language_selection (requestLanguage : String) (messages : List Message) :
    effective_language requestLanguage messages
      = languageSelectionSpec requestLanguage messages := by
  unfold effective_language languageSelectionSpec
  by_cases hreq : requestLanguage = "en"
  · simp only [hreq, if_pos rfl]
    unfold detect_language_from_messages detect_language isChineseChar
    cases hlast : ((messages.filter (fun m => m.role = "user")).map Message.content).getLast? with
    | none => simp [hlast]
    | some last =>
      simp only [hlast]
      have hk : (last.data.filter
          (fun c => decide (0x4e00 ≤ c.toNat) && decide (c.toNat ≤ 0x9fff))).length
          ≤ last.length :=
        List.length_filter_le _ _
      have hcond : 10 * (last.data.filter
          (fun c => decide (0x4e00 ≤ c.toNat) && decide (c.toNat ≤ 0x9fff))).length
          > max last.length 1
          ↔ 10 * (last.data.filter
              (fun c => decide (0x4e00 ≤ c.toNat) && decide (c.toNat ≤ 0x9fff))).length
              > last.length := by
        omega
      simp only [hcond]
  · simp [hreq]

/-- The apostrophe character, spliced into prompt text. -/
def apo : String := String.singleton (Char.ofNat 39)

/-- Python truthiness of an optional string (`None` and `""` are falsy), as
used by `if previous_response and previous_model:` in
`format_discuss_messages` (`backend/routers/discuss.py`). -/
def pyTruthy (o : Option String) : Bool :=
  match o with
  | none => false
  | some s => s ≠ ""

/-- Shape shared by the four step blocks of `format_discuss_messages`: an
intro line, five numbered bold items, and a closing paragraph. -/
def fiveSteps (intro s1 s2 s3 s4 s5 outro : String) : String :=
  intro ++ "1. **" ++ s1 ++ "2. **" ++ s2 ++ "3. **" ++ s3 ++ "4. **" ++ s4
    ++ "5. **" ++ s5 ++ outro

/-- The base system sentence of `format_discuss_messages`
(`backend/routers/discuss.py`, lines 51–54). -/
def discussBase (modelName language : String) : String :=
  if language = "zh" then
    "你是 " ++ modelName ++ " 模型。你是一位深思熟虑、善于分析的专家。"
  else
    "You are the " ++ modelName ++ " model. You are a thoughtful, analytical expert."

/-- The text between the name of the previous model and its quoted response in
the English previous-response section. -/
def enPrevIntro : String :=
  " has already answered this question. Their response was:\n\n\"\"\""

/-- The text between the name of the previous model and its quoted response in
the Chinese previous-response section. -/
def zhPrevIntro : String :=
  " 模型已经回答了这个问题。他们的回答是:\n\n\"\"\""

/-- The closing triple quote after the quoted previous response. -/
def prevClose : String := "\"\"\"\n\n"

/-- English critique steps (`backend/routers/discuss.py`, lines 69–75),
split at the numbered markers. -/
def enPrevIntroSteps : String := "Please follow these steps in your response:\n\n"

def enPrevS1 : String :=
  "Analyze the previous response**: First, carefully analyze the above response, identifying its strengths, limitations, and potential blind spots. Evaluate its logical coherence, comprehensiveness, and accuracy.\n"

def enPrevS2 : String :=
  "Provide your perspective**: Incorporate valuable insights from the previous response while offering your unique viewpoint. Pay special attention to aspects that weren"
  ++ apo ++ "t fully explored in the previous answer.\n"

def enPrevS3 : String :=
  "Deepen the analysis**: Examine the question at a deeper level, considering different angles, potential implications, and long-term consequences.\n"

def enPrevS4 : String :=
  "Present my solution**: If applicable, provide specific, actionable advice or solutions.\n"

def enPrevS5 : String :=
  "Summarize key points**: Finally, summarize your main points and insights, highlighting how they differ from the previous response.\n\n"

def enPrevOutro : String :=
  "Your answer should be comprehensive, insightful, and demonstrate your unique thinking process. Avoid simply repeating content from the previous response."

def enPrevSteps : String :=
  fiveSteps enPrevIntroSteps enPrevS1 enPrevS2 enPrevS3 enPrevS4 enPrevS5 enPrevOutro

/-- Chinese critique steps (`backend/routers/discuss.py`, lines 60–66). -/
def zhPrevIntroSteps : String := "请遵循以下步骤进行回应：\n\n"

def zhPrevS1 : String :=
  "分析前一个回答**：首先，仔细分析上面的回答，指出其中的优点、不足和可能存在的盲点。评估其逻辑性、全面性和准确性。\n"

def zhPrevS2 : String :=
  "提供你的视角**：结合前一个回答中的有价值观点，提供你自己独特的见解。特别关注前一个回答中未充分探讨的方面。\n"

def zhPrevS3 : String :=
  "深入探讨**：对问题进行更深层次的分析，考虑不同角度、潜在影响和长期后果。\n"

def zhPrevS4 : String :=
  "给出我的方案**：如果适用，提供具体、可操作的建议或解决方案。\n"

def zhPrevS5 : String :=
  "总结关键点**：最后，总结你的主要观点和见解，强调与前一个回答的不同之处。\n\n"

def zhPrevOutro : String :=
  "你的回答应该全面、深入、有洞察力，并且能够展示你独特的思考方式。避免简单重复前一个回答的内容。"

def zhPrevSteps : String :=
  fiveSteps zhPrevIntroSteps zhPrevS1 zhPrevS2 zhPrevS3 zhPrevS4 zhPrevS5 zhPrevOutro

/-- The previous-response section appended when both `previous_response` and
`previous_model` are truthy (`backend/routers/discuss.py`, lines 57–75). -/
def discussPrevSection (pm pr language : String) : String :=
  if language = "zh" then
    "\n\n" ++ pm ++ zhPrevIntro ++ pr ++ prevClose ++ zhPrevSteps
  else
    "\n\n" ++ pm ++ enPrevIntro ++ pr ++ prevClose ++ enPrevSteps

/-- English first-model steps (`backend/routers/discuss.py`, lines 87–93). -/
def enFirstIntro : String :=
  "\n\nPlease follow these steps to answer the user" ++ apo ++ "s question:\n\n"

def enFirstS1 : String :=
  "Understand the question fully**: First ensure you comprehend all aspects of the question and its potential complexities.\n"

def enFirstS2 : String :=
  "Provide in-depth analysis**: Analyze the question from multiple perspectives and levels, considering different viewpoints and possible implications.\n"

def enFirstS3 : String :=
  "Reference relevant knowledge**: Where appropriate, reference relevant domain knowledge, theories, or best practices to support your points.\n"

def enFirstS4 : String :=
  "Present my solution**: If applicable, provide clear, actionable advice or solutions.\n"

def enFirstS5 : String :=
  "Summarize key insights**: Finally, summarize your main points and insights.\n\n"

def enFirstOutro : String :=
  "Your response should be comprehensive, thoughtful, and demonstrate your capabilities as a sophisticated model."

def enFirstSection : String :=
  fiveSteps enFirstIntro enFirstS1 enFirstS2 enFirstS3 enFirstS4 enFirstS5 enFirstOutro

/-- Chinese first-model steps (`backend/routers/discuss.py`, lines 79–85). -/
def zhFirstIntro : String := "\n\n请遵循以下步骤回答用户的问题：\n\n"

def zhFirstS1 : String :=
  "全面理解问题**：首先确保你完全理解了问题的各个方面和潜在的复杂性。\n"

def zhFirstS2 : String :=
  "提供深入分析**：对问题进行多角度、多层次的分析，考虑不同的观点和可能的影响。\n"

def zhFirstS3 : String :=
  "引用相关知识**：适当引用相关领域的知识、理论或最佳实践来支持你的观点。\n"

def zhFirstS4 : String :=
  "给出我的方案**：如果适用，提供明确、可操作的建议或解决方案。\n"

def zhFirstS5 : String :=
  "总结关键见解**：最后，总结你的主要观点和见解。\n\n"

def zhFirstOutro : String :=
  "你的回答应该全面、深入、有洞察力，并且能够展示你作为专业模型的思考能力。"

def zhFirstSection : String :=
  fiveSteps zhFirstIntro zhFirstS1 zhFirstS2 zhFirstS3 zhFirstS4 zhFirstS5 zhFirstOutro

/-- The first-model section appended when no previous response is supplied. -/
def discussFirstSection (language : String) : String :=
  if language = "zh" then zhFirstSection else enFirstSection

/-- The complete `system_content` built by `format_discuss_messages` in
`backend/routers/discuss.py`. -/
def discussSystemContent (modelName : String) (previousModel previousResponse : Option String)
    (language : String) : String :=
  if pyTruthy previousResponse && pyTruthy previousModel then
    discussBase modelName language
      ++ discussPrevSection (previousModel.getD "") (previousResponse.getD "") language
  else
    discussBase modelName language ++ discussFirstSection language

/-- `format_discuss_messages` from `backend/routers/discuss.py`: builds the
system message and prepends it (unconditionally) to the conversation. -/
def format_discuss_messages (messages : List Message) (modelName : String)
    (previousModel previousResponse : Option String) (language : String) : List Message :=
  { role := "system",
    content := discussSystemContent modelName previousModel previousResponse language }
    :: messages

/-- The numbered-step markers of the five-step contract, present in all four
variants of the discuss system prompt. -/
def stepMarkers : List String := ["1. **", "2. **", "3. **", "4. **", "5. **"]

/-- The header phrase of the previous-response section, per locale. -/
def prevMarker (language : String) : String :=
  if language = "zh" then "已经回答了这个问题" else "has already answered this question"

/-- The model labels the discuss endpoints pass to `format_discuss_messages`. -/
def discussModelNames : List String :=
  ["OpenAI", "Grok", "Qwen", "DeepSeek", "Doubao", "GLM"]

theorem infix_refl (l : List Char) : l <:+: l := ⟨[], [], by simp⟩

theorem infix_glue (pre mid post : List Char) {pat L : List Char}
    (hmid : pat <:+: mid) (h : pre ++ mid ++ post = L) : pat <:+: L := by
  subst h
  exact hmid.trans ⟨pre, post, rfl⟩

theorem not_infix_append {pat : List Char} (a b : List Char)
    (ha : ¬ pat <:+: a) (hb : ¬ pat <:+: b)
    (hstr : ∀ k < pat.length, 0 < k →
      ¬ ((pat.take k) <:+ a ∧ (pat.drop k) <+: b)) :
    ¬ pat <:+: a ++ b := by
  rintro ⟨s, t, h⟩
  rcases List.append_eq_append_iff.mp h with ⟨m, hm1, hm2⟩ | ⟨m, hm1, hm2⟩
  · exact ha ⟨s, m, hm1.symm⟩
  · rcases List.append_eq_append_iff.mp hm1 with ⟨m2, hq1, hq2⟩ | ⟨m2, hq1, hq2⟩
    · by_cases hm2nil : m2 = []
      · subst hm2nil
        simp only [List.nil_append] at hq2
        exact hb ⟨[], t, by simp [hm2, hq2]⟩
      · by_cases hmnil : m = []
        · subst hmnil
          simp only [List.append_nil] at hq2
          exact ha ⟨s, [], by simp [hq1, hq2]⟩
        · have hkpos : 0 < m2.length := List.length_pos.mpr hm2nil
          have hklt : m2.length < pat.length := by
            rw [hq2, List.length_append]
            have := List.length_pos.mpr hmnil
            omega
          refine hstr m2.length hklt hkpos ⟨?_, ?_⟩
          · rw [hq2, List.take_left]
            exact ⟨s, hq1.symm⟩
          · rw [hq2, List.drop_left]
            exact ⟨t, hm2.symm⟩
    · exact hb ⟨m2, t, by rw [hm2, hq2]⟩

theorem fiveSteps_step_present (intro s1 s2 s3 s4 s5 outro : String) :
    ∀ step ∈ stepMarkers, step.data <:+: (fiveSteps intro s1 s2 s3 s4 s5 outro).data := by
  intro step hstep
  simp only [stepMarkers, List.mem_cons, List.not_mem_nil, or_false] at hstep
  rcases hstep with rfl | rfl | rfl | rfl | rfl
  · exact infix_glue intro.data "1. **".data
      (s1 ++ "2. **" ++ s2 ++ "3. **" ++ s3 ++ "4. **" ++ s4 ++ "5. **" ++ s5 ++ outro).data
      (infix_refl _) (by simp [fiveSteps, String.data_append, List.append_assoc])
  · exact infix_glue (intro ++ "1. **" ++ s1).data "2. **".data
      (s2 ++ "3. **" ++ s3 ++ "4. **" ++ s4 ++ "5. **" ++ s5 ++ outro).data
      (infix_refl _) (by simp [fiveSteps, String.data_append, List.append_assoc])
  · exact infix_glue (intro ++ "1. **" ++ s1 ++ "2. **" ++ s2).data "3. **".data
      (s3 ++ "4. **" ++ s4 ++ "5. **" ++ s5 ++ outro).data
      (infix_refl _) (by simp [fiveSteps, String.data_append, List.append_assoc])
  · exact infix_glue (intro ++ "1. **" ++ s1 ++ "2. **" ++ s2 ++ "3. **" ++ s3).data "4. **".data
      (s4 ++ "5. **" ++ s5 ++ outro).data
      (infix_refl _) (by simp [fiveSteps, String.data_append, List.append_assoc])
  · exact infix_glue
      (intro ++ "1. **" ++ s1 ++ "2. **" ++ s2 ++ "3. **" ++ s3 ++ "4. **" ++ s4).data "5. **".data
      (s5 ++ outro).data
      (infix_refl _) (by simp [fiveSteps, String.data_append, List.append_assoc])

theorem prevMarker_en_not_in_enFirst : ¬ (prevMarker "en").data <:+: enFirstSection.data := by
  have h : enFirstSection
      = enFirstIntro ++ ("1. **" ++ (enFirstS1 ++ ("2. **" ++ (enFirstS2 ++ ("3. **"
        ++ (enFirstS3 ++ ("4. **" ++ (enFirstS4 ++ ("5. **"
        ++ (enFirstS5 ++ enFirstOutro)))))))))) := rfl
  rw [h]
  simp only [String.data_append]
  refine not_infix_append _ _ (by decide) ?_ (by decide)
  refine not_infix_append _ _ (by decide) ?_ (by decide)
  refine not_infix_append _ _ (by decide) ?_ (by decide)
  refine not_infix_append _ _ (by decide) ?_ (by decide)
  refine not_infix_append _ _ (by decide) ?_ (by decide)
  refine not_infix_append _ _ (by decide) ?_ (by decide)
  refine not_infix_append _ _ (by decide) ?_ (by decide)
  refine not_infix_append _ _ (by decide) ?_ (by decide)
  refine not_infix_append _ _ (by decide) ?_ (by decide)
  refine not_infix_append _ _ (by decide) ?_ (by decide)
  refine not_infix_append _ _ (by decide) ?_ (by decide)
  decide

theorem prevMarker_zh_not_in_zhFirst : ¬ (prevMarker "zh").data <:+: zhFirstSection.data := by
  decide

/-- C8: in discussion mode, for every conversation and both locales, when both
`previous_model` and `previous_response` are supplied (truthy) the composed
system message contains the previous response text verbatim inside the
previous-response section together with the five-step critique structure, and
when no previous response is supplied the composed system message still
carries the five-step structure but contains no previous-response section,
with the "en" and "zh" variants carrying the same five-step contract. -/
theorem discuss_chain_composition (messages : List Message) (modelName pm pr lang : String)
    (hlang : lang = "en" ∨ lang = "zh") (hpm : pm ≠ "") (hpr : pr ≠ "") :
    (∃ C, format_discuss_messages messages modelName (some pm) (some pr) lang
        = { role := "system", content := C } :: messages
      ∧ pr.data <:+: C.data
      ∧ (prevMarker lang).data <:+: C.data
      ∧ ∀ step ∈ stepMarkers, step.data <:+: C.data)
    ∧ (∃ C0, format_discuss_messages messages modelName none none lang
        = { role := "system", content := C0 } :: messages
      ∧ (∀ step ∈ stepMarkers, step.data <:+: C0.data)
      ∧ (modelName ∈ discussModelNames → ¬ (prevMarker lang).data <:+: C0.data)) := by
  rcases hlang with rfl | rfl
  · have hC : discussSystemContent modelName (some pm) (some pr) "en"
        = discussBase modelName "en"
          ++ ("\n\n" ++ pm ++ enPrevIntro ++ pr ++ prevClose ++ enPrevSteps) := by
      simp [discussSystemContent, pyTruthy, hpm, hpr, discussPrevSection]
    constructor
    · refine ⟨_, rfl, ?_, ?_, ?_⟩
      · rw [hC]
        exact infix_glue (discussBase modelName "en" ++ ("\n\n" ++ pm ++ enPrevIntro)).data
          pr.data (prevClose ++ enPrevSteps).data (infix_refl _)
          (by simp [String.data_append, List.append_assoc])
      · rw [hC]
        exact infix_glue (discussBase modelName "en" ++ ("\n\n" ++ pm)).data
          enPrevIntro.data (pr ++ prevClose ++ enPrevSteps).data
          (by decide) (by simp [String.data_append, List.append_assoc])
      · have hall : ∀ step ∈ stepMarkers, step.data <:+: enPrevSteps.data :=
          fiveSteps_step_present enPrevIntroSteps enPrevS1 enPrevS2 enPrevS3 enPrevS4
            enPrevS5 enPrevOutro
        intro step hstep
        rw [hC]
        exact infix_glue
          (discussBase modelName "en" ++ ("\n\n" ++ pm ++ enPrevIntro ++ pr ++ prevClose)).data
          enPrevSteps.data [] (hall step hstep)
          (by simp [String.data_append, List.append_assoc])
    · refine ⟨_, rfl, ?_, ?_⟩
      · have hall : ∀ step ∈ stepMarkers, step.data <:+: enFirstSection.data :=
          fiveSteps_step_present enFirstIntro enFirstS1 enFirstS2 enFirstS3 enFirstS4
            enFirstS5 enFirstOutro
        intro step hstep
        have hC0 : discussSystemContent modelName none none "en"
            = discussBase modelName "en" ++ enFirstSection := rfl
        rw [hC0]
        exact infix_glue (discussBase modelName "en").data enFirstSection.data []
          (hall step hstep) (by simp [String.data_append, List.append_assoc])
      · intro hmn
        simp only [discussModelNames, List.mem_cons, List.not_mem_nil, or_false] at hmn
        rcases hmn with rfl | rfl | rfl | rfl | rfl | rfl
        all_goals {
          rw [show discussSystemContent _ none none "en"
              = discussBase _ "en" ++ enFirstSection from rfl, String.data_append]
          exact not_infix_append _ _ (by decide) prevMarker_en_not_in_enFirst (by decide)
        }
  · have hC : discussSystemContent modelName (some pm) (some pr) "zh"
        = discussBase modelName "zh"
          ++ ("\n\n" ++ pm ++ zhPrevIntro ++ pr ++ prevClose ++ zhPrevSteps) := by
      simp [discussSystemContent, pyTruthy, hpm, hpr, discussPrevSection]
    constructor
    · refine ⟨_, rfl, ?_, ?_, ?_⟩
      · rw [hC]
        exact infix_glue (discussBase modelName "zh" ++ ("\n\n" ++ pm ++ zhPrevIntro)).data
          pr.data (prevClose ++ zhPrevSteps).data (infix_refl _)
          (by simp [String.data_append, List.append_assoc])
      · rw [hC]
        exact infix_glue (discussBase modelName "zh" ++ ("\n\n" ++ pm)).data
          zhPrevIntro.data (pr ++ prevClose ++ zhPrevSteps).data
          (by decide) (by simp [String.data_append, List.append_assoc])
      · have hall : ∀ step ∈ stepMarkers, step.data <:+: zhPrevSteps.data :=
          fiveSteps_step_present zhPrevIntroSteps zhPrevS1 zhPrevS2 zhPrevS3 zhPrevS4
            zhPrevS5 zhPrevOutro
        intro step hstep
        rw [hC]
        exact infix_glue
          (discussBase modelName "zh" ++ ("\n\n" ++ pm ++ zhPrevIntro ++ pr ++ prevClose)).data
          zhPrevSteps.data [] (hall step hstep)
          (by simp [String.data_append, List.append_assoc])
    · refine ⟨_, rfl, ?_, ?_⟩
      · have hall : ∀ step ∈ stepMarkers, step.data <:+: zhFirstSection.data :=
          fiveSteps_step_present zhFirstIntro zhFirstS1 zhFirstS2 zhFirstS3 zhFirstS4
            zhFirstS5 zhFirstOutro
        intro step hstep
        have hC0 : discussSystemContent modelName none none "zh"
            = discussBase modelName "zh" ++ zhFirstSection := rfl
        rw [hC0]
        exact infix_glue (discussBase modelName "zh").data zhFirstSection.data []
          (hall step hstep) (by simp [String.data_append, List.append_assoc])
      · intro hmn
        simp only [discussModelNames, List.mem_cons, List.not_mem_nil, or_false] at hmn
        rcases hmn with rfl | rfl | rfl | rfl | rfl | rfl
        all_goals {
          rw [show discussSystemContent _ none none "zh"
              = discussBase _ "zh" ++ zhFirstSection from rfl, String.data_append]
          exact not_infix_append _ _ (by decide) prevMarker_zh_not_in_zhFirst (by decide)
        }

/-- Closed instance of `discuss_chain_composition`: the DeepSeek discuss
endpoint composing over the previous answer from Qwen, locale "en". -/
theorem discuss_chain_composition_witness :
    (("en" = "en" ∨ "en" = "zh") ∧ "Qwen" ≠ "" ∧ "prev-answer" ≠ "")
    ∧ ∃ C, format_discuss_messages [{ role := "user", content := "q" }] "DeepSeek"
          (some "Qwen") (some "prev-answer") "en"
        = { role := "system", content := C } :: [{ role := "user", content := "q" }]
      ∧ "prev-answer".data <:+: C.data := by
  refine ⟨⟨Or.inl rfl, by decide, by decide⟩, ?_⟩
  obtain ⟨⟨C, h1, h2, -, -⟩, -⟩ :=
    discuss_chain_composition [{ role := "user", content := "q" }] "DeepSeek"
      "Qwen" "prev-answer" "en" (Or.inl rfl) (by decide) (by decide)
  exact ⟨C, h1, h2⟩

/-- C6 counterexample: `format_discuss_messages` prepends a system message even
to a conversation that already starts with one, so applying the composition
twice leaves two system messages at the head, not one. -/
theorem system_prepend_not_idempotent_cex :
    (format_discuss_messages [{ role := "system", content := "s" },
        { role := "user", content := "q" }] "OpenAI" none none "en").length = 3
    ∧ ((format_discuss_messages
          (format_discuss_messages [{ role := "system", content := "s" },
            { role := "user", content := "q" }] "OpenAI" none none "en")
          "OpenAI" none none "en").take 2).map Message.role = ["system", "system"] :=
  ⟨rfl, rfl⟩

/-- C6 amended: the system-prompt injection in `format_discuss_messages` is an
unconditional prepend — it inserts the system message whether or not the
conversation already starts with one, growing the conversation by exactly one
message, and applying the composition twice always leaves two system messages
at the head. -/
theorem system_prepend_unconditional (messages : List Message) (modelName : String)
    (previousModel previousResponse : Option String) (language : String) :
    (format_discuss_messages messages modelName previousModel previousResponse language).length
        = messages.length + 1
    ∧ ((format_discuss_messages
          (format_discuss_messages messages modelName previousModel previousResponse language)
          modelName previousModel previousResponse language).take 2).map Message.role
        = ["system", "system"] :=
  ⟨rfl, rfl⟩

/-- English summary system prompt of `format_summary_messages`
(`backend/routers/discuss.py`, lines 134–144), split at its bullet lines. -/
def enSumA : String :=
  "You are a professional summarization expert. Please provide a natural, flowing summary of the following discussion, extracting key insights and the best solution approach.\n\nYour summary should cover these elements, but please write in a natural, conversational style without using numbered sections or explicit paragraph markers:\n\n"

def enSumB : String := "- Clarify the central issue and main focus of the discussion\n"

def enSumC : String :=
  "- Integrate key points from all responses without mentioning specific model names\n"

def enSumD : String := "- Identify common ground and divergent viewpoints across the responses\n"

def enSumE : String := "- Offer a comprehensive, balanced solution based on all perspectives shared\n"

def enSumF : String := "- Concisely present the main findings and conclusions\n\n"

def enSumG : String :=
  "Write as if you" ++ apo
  ++ "re having a conversation with the reader. Your summary should be objective and comprehensive, avoiding bias toward any single viewpoint, and should not mention which model proposed which idea. Focus on the content itself, not the source of the content."

def enSummarySystem : String :=
  enSumA ++ enSumB ++ enSumC ++ enSumD ++ enSumE ++ enSumF ++ enSumG

/-- Chinese summary system prompt of `format_summary_messages`
(`backend/routers/discuss.py`, lines 122–132). -/
def zhSumA : String :=
  "你是一位专业的总结专家。请对以下讨论进行全面而自然的总结，提炼出关键见解和最佳解决方案。\n\n你的总结应该涵盖以下内容，但请以自然流畅的方式写作，不要使用编号或明显的段落标记：\n\n"

def zhSumB : String := "- 明确讨论的核心问题和主要关注点\n"

def zhSumC : String := "- 整合所有观点中的关键见解，不提及具体模型名称\n"

def zhSumD : String := "- 指出各个观点之间的共识和分歧\n"

def zhSumE : String := "- 基于所有讨论，提出全面、平衡的解决方案\n"

def zhSumF : String := "- 简明扼要地总结主要发现和结论\n\n"

def zhSumG : String :=
  "请以自然、流畅的方式写作，就像你在与读者进行对话。你的总结应该客观、全面，避免偏向任何单一观点，并且不要提及是哪个模型提出了哪个观点。专注于内容本身，而不是内容的来源。"

def zhSummarySystem : String :=
  zhSumA ++ zhSumB ++ zhSumC ++ zhSumD ++ zhSumE ++ zhSumF ++ zhSumG

/-- The `system_content` choice of `format_summary_messages`. -/
def summarySystemContent (language : String) : String :=
  if language = "zh" then zhSummarySystem else enSummarySystem

/-- Python `str.upper()` on the (ASCII) provider names, written with
structural recursion so it reduces definitionally. -/
def pyUpper (s : String) : String := ⟨s.data.map Char.toUpper⟩

/-- One entry of the `all_responses` accumulation in `format_summary_messages`:
`f"\n\n{model.upper()} RESPONSE:\n{response}"`. -/
def responseSegment (p : String × String) : String :=
  "\n\n" ++ pyUpper p.1 ++ " RESPONSE:\n" ++ p.2

/-- The `all_responses` accumulation loop of `format_summary_messages`
(`for model, response in responses.items(): all_responses += ...`); the
mapping is embedded as an association list in dict insertion order. -/
def all_responses_text (responses : List (String × String)) : String :=
  responses.foldl (fun acc p => acc ++ responseSegment p) ""

/-- The `user_content` of `format_summary_messages`. -/
def summaryUserContent (userPrompt : String) (responses : List (String × String))
    (language : String) : String :=
  if language = "zh" then
    "用户问题: " ++ userPrompt ++ "\n\n各方回应:" ++ all_responses_text responses
  else
    "User question: " ++ userPrompt ++ "\n\nResponses:" ++ all_responses_text responses

/-- `format_summary_messages` from `backend/routers/discuss.py`. -/
def format_summary_messages (userPrompt : String) (responses : List (String × String))
    (language : String) : List Message :=
  [{ role := "system", content := summarySystemContent language },
   { role := "user", content := summaryUserContent userPrompt responses language }]

/-- Language-appropriate markers for the five semantic elements, the
flowing-prose instruction, and the attribution-free instruction of the
summary system prompt. -/
def enSummaryMarkers : List String :=
  ["central issue", "Integrate key points", "common ground and divergent viewpoints",
   "comprehensive, balanced solution", "main findings and conclusions",
   "without using numbered sections", "not mention which model"]

def zhSummaryMarkers : List String :=
  ["核心问题", "关键见解", "共识和分歧", "全面、平衡的解决方案", "主要发现和结论",
   "不要使用编号", "不要提及是哪个模型"]

def summaryMarkers (language : String) : List String :=
  if language = "zh" then zhSummaryMarkers else enSummaryMarkers

theorem all_responses_data (responses : List (String × String)) (acc : String) :
    (responses.foldl (fun acc p => acc ++ responseSegment p) acc).data
      = acc.data ++ (responses.foldl (fun acc p => acc ++ responseSegment p) "").data := by
  induction responses generalizing acc with
  | nil => simp [show ("" : String).data = [] from rfl]
  | cons r rest ih =>
    simp only [List.foldl_cons]
    rw [ih (acc ++ responseSegment r), ih ("" ++ responseSegment r)]
    simp [String.data_append, show ("" : String).data = [] from rfl, List.append_assoc]

theorem segment_of_mem_responses {responses : List (String × String)} {p : String × String}
    (hp : p ∈ responses) :
    (responseSegment p).data <:+: (all_responses_text responses).data := by
  induction responses with
  | nil => cases hp
  | cons r rest ih =>
    have hall : (all_responses_text (r :: rest)).data
        = (responseSegment r).data ++ (all_responses_text rest).data := by
      show ((r :: rest).foldl (fun acc q => acc ++ responseSegment q) "").data = _
      rw [List.foldl_cons, all_responses_data]
      simp [String.data_append, show ("" : String).data = [] from rfl, all_responses_text]
    rcases List.mem_cons.mp hp with rfl | hp'
    · rw [hall]
      exact ⟨[], (all_responses_text rest).data, by simp⟩
    · rw [hall]
      rcases ih hp' with ⟨s, t, hst⟩
      exact ⟨(responseSegment r).data ++ s, t, by rw [← hst]; simp [List.append_assoc]⟩

/-- C5: for every question and responses mapping and both supported locales,
the composed summary conversation has a system message containing the
language-appropriate markers for attribution-free synthesis, the five
semantic elements (core issue, merged key points, agreement, divergence,
unified balanced conclusion), and the flowing-prose instruction, while the
user message embeds the question and the collected responses labelled by
provider. -/
theorem summary_messages_locale_parity (q : String) (responses : List (String × String))
    (lang : String) (hlang : lang = "en" ∨ lang = "zh") :
    ∃ sysC userC,
      format_summary_messages q responses lang
        = [{ role := "system", content := sysC }, { role := "user", content := userC }]
      ∧ (∀ m ∈ summaryMarkers lang, m.data <:+: sysC.data)
      ∧ q.data <:+: userC.data
      ∧ ∀ p ∈ responses, (responseSegment p).data <:+: userC.data := by
  rcases hlang with rfl | rfl
  · refine ⟨_, _, rfl, ?_, ?_, ?_⟩
    · intro m hm
      rw [show summaryMarkers "en" = enSummaryMarkers from rfl] at hm
      rw [show summarySystemContent "en" = enSummarySystem from rfl]
      simp only [enSummaryMarkers, List.mem_cons, List.not_mem_nil, or_false] at hm
      rcases hm with rfl | rfl | rfl | rfl | rfl | rfl | rfl
      · exact infix_glue enSumA.data enSumB.data
          (enSumC ++ enSumD ++ enSumE ++ enSumF ++ enSumG).data (by decide)
          (by simp [enSummarySystem, String.data_append, List.append_assoc])
      · exact infix_glue (enSumA ++ enSumB).data enSumC.data
          (enSumD ++ enSumE ++ enSumF ++ enSumG).data (by decide)
          (by simp [enSummarySystem, String.data_append, List.append_assoc])
      · exact infix_glue (enSumA ++ enSumB ++ enSumC).data enSumD.data
          (enSumE ++ enSumF ++ enSumG).data (by decide)
          (by simp [enSummarySystem, String.data_append, List.append_assoc])
      · exact infix_glue (enSumA ++ enSumB ++ enSumC ++ enSumD).data enSumE.data
          (enSumF ++ enSumG).data (by decide)
          (by simp [enSummarySystem, String.data_append, List.append_assoc])
      · exact infix_glue (enSumA ++ enSumB ++ enSumC ++ enSumD ++ enSumE).data enSumF.data
          enSumG.data (by decide)
          (by simp [enSummarySystem, String.data_append, List.append_assoc])
      · exact infix_glue [] enSumA.data
          (enSumB ++ enSumC ++ enSumD ++ enSumE ++ enSumF ++ enSumG).data (by decide)
          (by simp [enSummarySystem, String.data_append, List.append_assoc])
      · exact infix_glue (enSumA ++ enSumB ++ enSumC ++ enSumD ++ enSumE ++ enSumF).data
          enSumG.data [] (by decide)
          (by simp [enSummarySystem, String.data_append, List.append_assoc])
    · rw [show summaryUserContent q responses "en"
          = "User question: " ++ q ++ "\n\nResponses:" ++ all_responses_text responses from rfl]
      exact infix_glue "User question: ".data q.data
        ("\n\nResponses:" ++ all_responses_text responses).data (infix_refl _)
        (by simp [String.data_append, List.append_assoc])
    · intro p hp
      rw [show summaryUserContent q responses "en"
          = "User question: " ++ q ++ "\n\nResponses:" ++ all_responses_text responses from rfl]
      exact infix_glue ("User question: " ++ q ++ "\n\nResponses:").data
        (all_responses_text responses).data [] (segment_of_mem_responses hp)
        (by simp [String.data_append, List.append_assoc])
  · refine ⟨_, _, rfl, ?_, ?_, ?_⟩
    · intro m hm
      rw [show summaryMarkers "zh" = zhSummaryMarkers from rfl] at hm
      rw [show summarySystemContent "zh" = zhSummarySystem from rfl]
      simp only [zhSummaryMarkers, List.mem_cons, List.not_mem_nil, or_false] at hm
      rcases hm with rfl | rfl | rfl | rfl | rfl | rfl | rfl
      · exact infix_glue zhSumA.data zhSumB.data
          (zhSumC ++ zhSumD ++ zhSumE ++ zhSumF ++ zhSumG).data (by decide)
          (by simp [zhSummarySystem, String.data_append, List.append_assoc])
      · exact infix_glue (zhSumA ++ zhSumB).data zhSumC.data
          (zhSumD ++ zhSumE ++ zhSumF ++ zhSumG).data (by decide)
          (by simp [zhSummarySystem, String.data_append, List.append_assoc])
      · exact infix_glue (zhSumA ++ zhSumB ++ zhSumC).data zhSumD.data
          (zhSumE ++ zhSumF ++ zhSumG).data (by decide)
          (by simp [zhSummarySystem, String.data_append, List.append_assoc])
      · exact infix_glue (zhSumA ++ zhSumB ++ zhSumC ++ zhSumD).data zhSumE.data
          (zhSumF ++ zhSumG).data (by decide)
          (by simp [zhSummarySystem, String.data_append, List.append_assoc])
      · exact infix_glue (zhSumA ++ zhSumB ++ zhSumC ++ zhSumD ++ zhSumE).data zhSumF.data
          zhSumG.data (by decide)
          (by simp [zhSummarySystem, String.data_append, List.append_assoc])
      · exact infix_glue [] zhSumA.data
          (zhSumB ++ zhSumC ++ zhSumD ++ zhSumE ++ zhSumF ++ zhSumG).data (by decide)
          (by simp [zhSummarySystem, String.data_append, List.append_assoc])
      · exact infix_glue (zhSumA ++ zhSumB ++ zhSumC ++ zhSumD ++ zhSumE ++ zhSumF).data
          zhSumG.data [] (by decide)
          (by simp [zhSummarySystem, String.data_append, List.append_assoc])
    · rw [show summaryUserContent q responses "zh"
          = "用户问题: " ++ q ++ "\n\n各方回应:" ++ all_responses_text responses from rfl]
      exact infix_glue "用户问题: ".data q.data
        ("\n\n各方回应:" ++ all_responses_text responses).data (infix_refl _)
        (by simp [String.data_append, List.append_assoc])
    · intro p hp
      rw [show summaryUserContent q responses "zh"
          = "用户问题: " ++ q ++ "\n\n各方回应:" ++ all_responses_text responses from rfl]
      exact infix_glue ("用户问题: " ++ q ++ "\n\n各方回应:").data
        (all_responses_text responses).data [] (segment_of_mem_responses hp)
        (by simp [String.data_append, List.append_assoc])

/-- Closed instance of `summary_messages_locale_parity`: the question and the
labelled openai response appear in the composed user message. -/
theorem summary_messages_locale_parity_witness :
    ("en" = "en" ∨ "en" = "zh")
    ∧ ∃ sysC userC,
        format_summary_messages "Q" [("openai", "foo")] "en"
          = [{ role := "system", content := sysC }, { role := "user", content := userC }]
        ∧ "Q".data <:+: userC.data
        ∧ (responseSegment ("openai", "foo")).data <:+: userC.data := by
  refine ⟨Or.inl rfl, ?_⟩
  obtain ⟨sysC, userC, h1, -, h3, h4⟩ :=
    summary_messages_locale_parity "Q" [("openai", "foo")] "en" (Or.inl rfl)
  exact ⟨sysC, userC, h1, h3, h4 ("openai", "foo") (by simp)⟩

/-- Embedding of the summary fallback in `generate_discussion_summary`
(`backend/routers/discuss.py`, lines 272–293).  The outcomes of the two
candidate calls (`call_qwen`, `call_deepseek`) are passed in as parameters:
`.ok v` when the call returns `v`, `.error e` when it raises an exception
whose string rendering is `e`.  The result is the endpoint outcome — `.ok v`,
or `.error (500, str(e))` for the `HTTPException(status_code=500,
detail=str(e))` raised by the outer handler when the fallback candidate also
fails — paired with the ordered list of providers actually invoked. -/
def generate_discussion_summary (language : String)
    (qwenOutcome deepseekOutcome : Except String String) :
    Except (Nat × String) String × List String :=
  if language = "zh" then
    match deepseekOutcome with
    | .ok v => (.ok v, ["deepseek"])
    | .error _ =>
      match qwenOutcome with
      | .ok v => (.ok v, ["deepseek", "qwen"])
      | .error e2 => (.error (500, e2), ["deepseek", "qwen"])
  else
    match qwenOutcome with
    | .ok v => (.ok v, ["qwen"])
    | .error _ =>
      match deepseekOutcome with
      | .ok v => (.ok v, ["qwen", "deepseek"])
      | .error e2 => (.error (500, e2), ["qwen", "deepseek"])

/-- C3 counterexample: when both summary candidates fail under locale "zh",
the error raised to the caller carries only the failure text of the last
candidate — the failure text of the first candidate does not appear in it, so the
raised error is not an aggregate of the full ordered failure list. -/
theorem summary_fallback_last_error_only_cex :
    (generate_discussion_summary "zh" (.error "qwen-failure") (.error "deepseek-failure")).1
      = .error (500, "qwen-failure")
    ∧ ¬ ("deepseek-failure".data <:+: "qwen-failure".data) :=
  ⟨rfl, by decide⟩

/-- C3 amended: when every candidate in the summary fallback chain fails, the
error raised to the caller is `HTTPException(500, str(e))` built from the
failure of the last candidate alone (the earlier failure is only logged), for both
locale orders. -/
theorem summary_fallback_error_carries_last_failure (e1 e2 : String) :
    generate_discussion_summary "zh" (.error e2) (.error e1)
      = (.error (500, e2), ["deepseek", "qwen"])
    ∧ generate_discussion_summary "en" (.error e1) (.error e2)
      = (.error (500, e2), ["qwen", "deepseek"]) :=
  ⟨rfl, rfl⟩

/-- C7: the summary fallback tries its candidates in a locale-determined
order — "zh" tries deepseek then qwen, any other locale tries qwen then
deepseek — returning the outcome of the first successful candidate immediately
without invoking the later candidate, and invoking the second candidate
exactly when the first fails. -/
theorem summary_fallback_order (qwenOutcome deepseekOutcome : Except String String) :
    (∀ v, deepseekOutcome = .ok v →
      generate_discussion_summary "zh" qwenOutcome deepseekOutcome = (.ok v, ["deepseek"]))
    ∧ (∀ v, qwenOutcome = .ok v →
      generate_discussion_summary "en" qwenOutcome deepseekOutcome = (.ok v, ["qwen"]))
    ∧ (∀ e v, deepseekOutcome = .error e → qwenOutcome = .ok v →
      generate_discussion_summary "zh" qwenOutcome deepseekOutcome
        = (.ok v, ["deepseek", "qwen"]))
    ∧ (∀ e v, qwenOutcome = .error e → deepseekOutcome = .ok v →
      generate_discussion_summary "en" qwenOutcome deepseekOutcome
        = (.ok v, ["qwen", "deepseek"])) := by
  refine ⟨?_, ?_, ?_, ?_⟩
  · intro v h; subst h; rfl
  · intro v h; subst h; rfl
  · intro e v hd hq; subst hd; subst hq; rfl
  · intro e v hq hd; subst hq; subst hd; rfl

/-- Closed instance of `summary_fallback_order`: deepseek succeeding first in
the "zh" chain, and deepseek succeeding after a qwen failure in the "en"
chain. -/
theorem summary_fallback_order_witness :
    generate_discussion_summary "zh" (.error "qwen-err") (.ok "v") = (.ok "v", ["deepseek"])
    ∧ generate_discussion_summary "en" (.error "qwen-err") (.ok "v")
        = (.ok "v", ["qwen", "deepseek"]) := by
  constructor
  · exact (summary_fallback_order (.error "qwen-err") (.ok "v")).1 "v" rfl
  · exact (summary_fallback_order (.error "qwen-err") (.ok "v")).2.2.2 "qwen-err" "v" rfl rfl

/-- An API client as configured by `get_client` in
`backend/utils/model_helpers.py`: the `AsyncOpenAI(api_key=…, max_retries=6,
base_url=…, timeout=60.0)` construction.  The `id` field models Python object
identity — every constructed client gets a fresh id. -/
structure ClientObj where
  id : Nat
  api_key : String
  base_url : String
  max_retries : Nat
  timeout : Nat
deriving DecidableEq, Repr

/-- The module-level `_clients` dictionary plus a counter supplying fresh
object identities. -/
structure ClientRegistry where
  clients : List (String × ClientObj)
  nextId : Nat
deriving DecidableEq, Repr

/-- Python dict assignment `_clients[k] = v` on an association list. -/
def insertClient (m : List (String × ClientObj)) (k : String) (v : ClientObj) :
    List (String × ClientObj) :=
  if (m.lookup k).isSome then m.map (fun p => if p.1 = k then (k, v) else p)
  else m ++ [(k, v)]

/-- Failures of `get_client`: the `HTTPException(500, …)` for a missing key,
or the `KeyError` a `_clients[provider_name]` read would raise when the
provider key is absent. -/
inductive GetClientErr where
  | http (status : Nat) (detail : String)
  | keyError
deriving DecidableEq, Repr

def DEFAULT_TIMEOUT : Nat := 60

def MAX_RETRIES_COUNT : Nat := 6

/-- `get_client` from `backend/utils/model_helpers.py` (lines 41–77).
`envApiKey`/`envApiUrl` embed `get_api_key`/`get_api_url` from
`backend/env_config.py` (both return `""`-defaulted strings); `apiKey` is the
optional per-request key (`api_key or get_api_key(provider_name)`, with `""`
falsy).  The membership test uses `client_key = f"{provider_name}:{key_to_use}"`
while the store and the reads use `provider_name`, exactly as the source
does. -/
def get_client (envApiKey envApiUrl : String → String) (providerName : String)
    (apiKey : Option String) (st : ClientRegistry) :
    Except GetClientErr (ClientObj × ClientRegistry) :=
  let keyToUse :=
    match apiKey with
    | some k => if k = "" then envApiKey providerName else k
    | none => envApiKey providerName
  if keyToUse = "" then
    .error (.http 500 (pyUpper providerName ++ " API key not configured"))
  else
    let clientKey := providerName ++ ":" ++ keyToUse
    if (st.clients.lookup clientKey).isNone then
      let c : ClientObj :=
        ⟨st.nextId, keyToUse, envApiUrl providerName, MAX_RETRIES_COUNT, DEFAULT_TIMEOUT⟩
      .ok (c, ⟨insertClient st.clients providerName c, st.nextId + 1⟩)
    else
      match st.clients.lookup providerName with
      | none => .error .keyError
      | some cached =>
        if cached.api_key = keyToUse then .ok (cached, st)
        else
          let c : ClientObj :=
            ⟨st.nextId, keyToUse, envApiUrl providerName, MAX_RETRIES_COUNT, DEFAULT_TIMEOUT⟩
          .ok (c, ⟨insertClient st.clients providerName c, st.nextId + 1⟩)

/-- C2: evaluation at the failing input.  Starting from an empty registry,
two successive `get_client("openai", "k1")` calls both construct a client —
the second call returns a brand-new object (fresh identity), not the cached
one, because the cache membership test looks up `"openai:k1"` while the
entry is stored under `"openai"`.  A third call with a rotated credential
does return a client carrying the new credential. -/
theorem get_client_second_call_constructs_new_client :
    ∃ c1 st1 c2 st2,
      get_client (fun _ => "") (fun _ => "https://u") "openai" (some "k1") ⟨[], 0⟩
        = .ok (c1, st1)
      ∧ get_client (fun _ => "") (fun _ => "https://u") "openai" (some "k1") st1
        = .ok (c2, st2)
      ∧ c1.api_key = "k1" ∧ c2.api_key = "k1"
      ∧ c1.id ≠ c2.id
      ∧ st2.nextId = 2
      ∧ ∃ c3 st3,
          get_client (fun _ => "") (fun _ => "https://u") "openai" (some "k2") st2
            = .ok (c3, st3)
          ∧ c3.api_key = "k2" := by
  refine ⟨⟨0, "k1", "https://u", 6, 60⟩, ⟨[("openai", ⟨0, "k1", "https://u", 6, 60⟩)], 1⟩,
    ⟨1, "k1", "https://u", 6, 60⟩, ⟨[("openai", ⟨1, "k1", "https://u", 6, 60⟩)], 2⟩,
    rfl, rfl, rfl, rfl, by decide, rfl,
    ⟨2, "k2", "https://u", 6, 60⟩, ⟨[("openai", ⟨2, "k2", "https://u", 6, 60⟩)], 3⟩,
    rfl, rfl⟩

namespace SummaryPrompts

/-- Localized template fields of `get_summary_prompt` in
`backend/utils/summary_prompts.py` (the `templates` dictionary). -/
def enIntro : String := "I need you to create a table comparing AI responses to this question:"

def enQuestionPre : String := "QUESTION: "

def enTable : String :=
  "Create a clear, well-formatted markdown table that compares how each model answered this question. The table should have a row for each key point or concept from the responses. Each model should have its own column, and the cells should indicate whether and how the model addressed each point. Make sure to catch subtle differences in reasoning, level of detail, accuracy, and approach."

def enSim : String :=
  "After the table, provide a brief paragraph analyzing the similarities and differences in how the models approached this question."

def enModelResponses : String := "Here are the model responses to compare:"

def zhIntro : String := "我需要你创建一个表格，比较AI对这个问题的回答："

def zhQuestionPre : String := "问题："

def zhTable : String :=
  "创建一个清晰、格式良好的markdown表格，比较每个模型对这个问题的回答方式。表格应该为每个回答中的关键点或概念设置一行。每个模型应该有自己的列，单元格应该指出每个模型是否以及如何处理了每个要点。确保捕捉到推理方式、详细程度、准确性和方法上的微妙差异。"

def zhSim : String := "在表格之后，提供一个简短的段落，分析模型在处理这个问题时的相似点和不同点。"

def zhModelResponses : String := "以下是要比较的模型回答："

/-- `get_summary_prompt` from `backend/utils/summary_prompts.py` — the builder
used by `generate_summary` in `backend/utils/model_helpers.py`.
`templates.get(language, templates["en"])` picks the "zh" template exactly
when `language == "zh"` and the English one otherwise; the responses mapping
is embedded as an association list in dict insertion order, and the final
loop appends one block per entry actually present in the mapping. -/
def get_summary_prompt (question : String) (responses : List (String × String))
    (language : String) : String :=
  let intro := if language = "zh" then zhIntro else enIntro
  let qp := if language = "zh" then zhQuestionPre else enQuestionPre
  let table := if language = "zh" then zhTable else enTable
  let sim := if language = "zh" then zhSim else enSim
  let mr := if language = "zh" then zhModelResponses else enModelResponses
  let prompt := intro ++ "\n\n" ++ qp ++ question ++ "\n\n" ++ table ++ "\n\n" ++ sim
    ++ "\n\n" ++ mr ++ "\n\n"
  responses.foldl (fun acc p => acc ++ "\n---\n" ++ pyUpper p.1 ++ ":\n" ++ p.2 ++ "\n") prompt

end SummaryPrompts

namespace ModelPrompts

/-- Fixed pieces of `SUMMARY_PROMPTS["en_openai_grok"]` from
`backend/utils/model_prompts.py`, split at the formatting placeholders. -/
def enT1 : String :=
  "\nAnalyze and summarize the responses from four different AI models to the following question:\n\nQuestion: "

def enT2 : String := "\n\nHere are the responses:\n\nOpenAI: "

def enT3 : String := "\n\nGrok: "

def enT4 : String := "\n\nQwen: "

def enT5 : String := "\n\nDeepSeek: "

def enT6 : String :=
  "\n\nProvide a factual, objective summary that includes:\n1. Common points shared by multiple models\n2. Differences in their approaches or conclusions\n3. Key information presented across the responses\n4. Areas where models provide complementary information\n5. Any significant disagreements between models\n\nFocus solely on analyzing the content of the responses without adding your own opinions or subjective judgments. Format your response in clear sections with headings.\nIf possible, apply first-principles thinking.\n"

/-- Fixed pieces of `SUMMARY_PROMPTS["zh_doubao_glm"]` from
`backend/utils/model_prompts.py`. -/
def zhT1 : String := "\n分析并总结四个不同AI模型对以下问题的回答：\n\n问题："

def zhT2 : String := "\n\n以下是各模型的回答：\n\nDeepSeek："

def zhT3 : String := "\n\nQwen："

def zhT4 : String := "\n\nDoubao："

def zhT5 : String := "\n\nGLM："

def zhT6 : String :=
  "\n\n请提供一个客观、事实性的总结，包括：\n1. 多个模型共同提到的观点\n2. 它们在方法或结论上的差异\n3. 各回答中呈现的关键信息\n4. 模型提供互补信息的领域\n5. 模型之间存在的任何重大分歧\n\n请仅关注分析回答的内容，不要添加自己的观点或主观判断。请以清晰的章节和标题格式化您的回答。\n如有可能，请运用第一性原理思考。\n"

/-- `responses.get(name, no_response_text)` on the embedded mapping. -/
def lookupOr (responses : List (String × String)) (key dflt : String) : String :=
  match responses.lookup key with
  | some r => r
  | none => dflt

/-- `get_summary_prompt` from `backend/utils/model_prompts.py` (lines
274–320): fills every missing provider with `"No response"` (for "en") or
`"无回应"` (any other language), then formats the locale template — the "en"
template mentions only openai/grok/qwen/deepseek, the "zh" template only
deepseek/qwen/doubao/glm. -/
def get_summary_prompt (question : String) (responses : List (String × String))
    (language : String) : String :=
  let noResp := if language = "en" then "No response" else "无回应"
  if language = "zh" then
    zhT1 ++ question ++ zhT2 ++ lookupOr responses "deepseek" noResp
      ++ zhT3 ++ lookupOr responses "qwen" noResp
      ++ zhT4 ++ lookupOr responses "doubao" noResp
      ++ zhT5 ++ lookupOr responses "glm" noResp ++ zhT6
  else
    enT1 ++ question ++ enT2 ++ lookupOr responses "openai" noResp
      ++ enT3 ++ lookupOr responses "grok" noResp
      ++ enT4 ++ lookupOr responses "qwen" noResp
      ++ enT5 ++ lookupOr responses "deepseek" noResp ++ enT6

end ModelPrompts

theorem no_response_not_in_sp_en_prompt :
    ¬ ("No response".data
        <:+: (SummaryPrompts.get_summary_prompt "Q" [("openai", "foo")] "en").data) := by
  rw [show SummaryPrompts.get_summary_prompt "Q" [("openai", "foo")] "en"
      = "I need you to create a table comparing AI responses to this question:\n\nQUESTION: Q\n\n"
        ++ (SummaryPrompts.enTable
        ++ "\n\nAfter the table, provide a brief paragraph analyzing the similarities and differences in how the models approached this question.\n\nHere are the model responses to compare:\n\n\n---\nOPENAI:\nfoo\n")
      from rfl]
  simp only [String.data_append]
  refine not_infix_append _ _ (by decide) ?_ (by decide)
  exact not_infix_append _ _ (by decide) (by decide) (by decide)

theorem grok_not_in_sp_en_prompt :
    ¬ ("GROK".data
        <:+: (SummaryPrompts.get_summary_prompt "Q" [("openai", "foo")] "en").data) := by
  rw [show SummaryPrompts.get_summary_prompt "Q" [("openai", "foo")] "en"
      = "I need you to create a table comparing AI responses to this question:\n\nQUESTION: Q\n\n"
        ++ (SummaryPrompts.enTable
        ++ "\n\nAfter the table, provide a brief paragraph analyzing the similarities and differences in how the models approached this question.\n\nHere are the model responses to compare:\n\n\n---\nOPENAI:\nfoo\n")
      from rfl]
  simp only [String.data_append]
  refine not_infix_append _ _ (by decide) ?_ (by decide)
  exact not_infix_append _ _ (by decide) (by decide) (by decide)

theorem glm_not_in_mp_en_prompt :
    ¬ ("GLM".data
        <:+: (ModelPrompts.get_summary_prompt "Q" [("openai", "foo")] "en").data) := by
  rw [show ModelPrompts.get_summary_prompt "Q" [("openai", "foo")] "en"
      = "\nAnalyze and summarize the responses from four different AI models to the following question:\n\nQuestion: Q\n\nHere are the responses:\n\nOpenAI: foo"
        ++ ("\n\nGrok: No response\n\nQwen: No response\n\nDeepSeek: No response"
        ++ ModelPrompts.enT6) from rfl]
  simp only [String.data_append]
  refine not_infix_append _ _ (by decide) ?_ (by decide)
  exact not_infix_append _ _ (by decide) (by decide) (by decide)

theorem doubao_not_in_mp_en_prompt :
    ¬ ("Doubao".data
        <:+: (ModelPrompts.get_summary_prompt "Q" [("openai", "foo")] "en").data) := by
  rw [show ModelPrompts.get_summary_prompt "Q" [("openai", "foo")] "en"
      = "\nAnalyze and summarize the responses from four different AI models to the following question:\n\nQuestion: Q\n\nHere are the responses:\n\nOpenAI: foo"
        ++ ("\n\nGrok: No response\n\nQwen: No response\n\nDeepSeek: No response"
        ++ ModelPrompts.enT6) from rfl]
  simp only [String.data_append]
  refine not_infix_append _ _ (by decide) ?_ (by decide)
  exact not_infix_append _ _ (by decide) (by decide) (by decide)

theorem foo_not_in_mp_zh_prompt :
    ¬ ("foo".data
        <:+: (ModelPrompts.get_summary_prompt "Q" [("openai", "foo")] "zh").data) := by
  rw [show ModelPrompts.get_summary_prompt "Q" [("openai", "foo")] "zh"
      = "\n分析并总结四个不同AI模型对以下问题的回答：\n\n问题：Q\n\n以下是各模型的回答：\n\nDeepSeek：无回应\n\nQwen：无回应\n\nDoubao：无回应\n\nGLM：无回应"
        ++ ModelPrompts.zhT6 from rfl]
  simp only [String.data_append]
  exact not_infix_append _ _ (by decide) (by decide) (by decide)

/-- C4 counterexample: with `responses = {"openai": "foo"}` and locale "en",
the summary prompt actually consumed by `generate_summary`
(`summary_prompts.get_summary_prompt`) contains the "No response" placeholder
zero times — not once per absent provider — and contains no entry at all for
the absent provider grok. -/
theorem summary_prompt_placeholder_cex :
    ¬ ("No response".data
        <:+: (SummaryPrompts.get_summary_prompt "Q" [("openai", "foo")] "en").data)
    ∧ ¬ ("GROK".data
        <:+: (SummaryPrompts.get_summary_prompt "Q" [("openai", "foo")] "en").data) :=
  ⟨no_response_not_in_sp_en_prompt, grok_not_in_sp_en_prompt⟩

/-- C4 amended: the prompt builder used by the summary pipeline
(`summary_prompts.get_summary_prompt`) includes exactly the providers present
in the mapping (the labelled response of the present provider appears; absent
providers are omitted entirely, with no placeholder), while the alternate
builder (`model_prompts.get_summary_prompt`) substitutes the
locale-appropriate placeholder only for the four providers its locale
template lists — "en": openai/grok/qwen/deepseek, "zh":
deepseek/qwen/doubao/glm — and omits the other two providers; its "zh"
template even drops the supplied openai response. -/
theorem summary_prompt_placeholder_amended :
    ("OPENAI:\nfoo".data
        <:+: (SummaryPrompts.get_summary_prompt "Q" [("openai", "foo")] "en").data)
    ∧ ¬ ("No response".data
        <:+: (SummaryPrompts.get_summary_prompt "Q" [("openai", "foo")] "en").data)
    ∧ ¬ ("GROK".data
        <:+: (SummaryPrompts.get_summary_prompt "Q" [("openai", "foo")] "en").data)
    ∧ ("OpenAI: foo".data
        <:+: (ModelPrompts.get_summary_prompt "Q" [("openai", "foo")] "en").data)
    ∧ ("Grok: No response".data
        <:+: (ModelPrompts.get_summary_prompt "Q" [("openai", "foo")] "en").data)
    ∧ ("Qwen: No response".data
        <:+: (ModelPrompts.get_summary_prompt "Q" [("openai", "foo")] "en").data)
    ∧ ("DeepSeek: No response".data
        <:+: (ModelPrompts.get_summary_prompt "Q" [("openai", "foo")] "en").data)
    ∧ ¬ ("GLM".data
        <:+: (ModelPrompts.get_summary_prompt "Q" [("openai", "foo")] "en").data)
    ∧ ¬ ("Doubao".data
        <:+: (ModelPrompts.get_summary_prompt "Q" [("openai", "foo")] "en").data)
    ∧ ("DeepSeek：无回应".data
        <:+: (ModelPrompts.get_summary_prompt "Q" [("openai", "foo")] "zh").data)
    ∧ ("GLM：无回应".data
        <:+: (ModelPrompts.get_summary_prompt "Q" [("openai", "foo")] "zh").data)
    ∧ ¬ ("foo".data
        <:+: (ModelPrompts.get_summary_prompt "Q" [("openai", "foo")] "zh").data) := by
  refine ⟨?_, no_response_not_in_sp_en_prompt, grok_not_in_sp_en_prompt, ?_, ?_, ?_, ?_,
    glm_not_in_mp_en_prompt, doubao_not_in_mp_en_prompt, ?_, ?_, foo_not_in_mp_zh_prompt⟩
  · rw [show SummaryPrompts.get_summary_prompt "Q" [("openai", "foo")] "en"
        = "I need you to create a table comparing AI responses to this question:\n\nQUESTION: Q\n\n"
          ++ (SummaryPrompts.enTable
          ++ "\n\nAfter the table, provide a brief paragraph analyzing the similarities and differences in how the models approached this question.\n\nHere are the model responses to compare:\n\n\n---\nOPENAI:\nfoo\n")
        from rfl]
    simp only [String.data_append]
    exact infix_glue
      ("I need you to create a table comparing AI responses to this question:\n\nQUESTION: Q\n\n".data
        ++ SummaryPrompts.enTable.data)
      "\n\nAfter the table, provide a brief paragraph analyzing the similarities and differences in how the models approached this question.\n\nHere are the model responses to compare:\n\n\n---\nOPENAI:\nfoo\n".data
      [] (by decide) (by simp [List.append_assoc])
  · rw [show ModelPrompts.get_summary_prompt "Q" [("openai", "foo")] "en"
        = "\nAnalyze and summarize the responses from four different AI models to the following question:\n\nQuestion: Q\n\nHere are the responses:\n\nOpenAI: foo"
          ++ ("\n\nGrok: No response\n\nQwen: No response\n\nDeepSeek: No response"
          ++ ModelPrompts.enT6) from rfl]
    simp only [String.data_append]
    exact infix_glue []
      "\nAnalyze and summarize the responses from four different AI models to the following question:\n\nQuestion: Q\n\nHere are the responses:\n\nOpenAI: foo".data
      ("\n\nGrok: No response\n\nQwen: No response\n\nDeepSeek: No response".data
        ++ ModelPrompts.enT6.data)
      (by decide) (by simp [List.append_assoc])
  · rw [show ModelPrompts.get_summary_prompt "Q" [("openai", "foo")] "en"
        = "\nAnalyze and summarize the responses from four different AI models to the following question:\n\nQuestion: Q\n\nHere are the responses:\n\nOpenAI: foo"
          ++ ("\n\nGrok: No response\n\nQwen: No response\n\nDeepSeek: No response"
          ++ ModelPrompts.enT6) from rfl]
    simp only [String.data_append]
    exact infix_glue
      "\nAnalyze and summarize the responses from four different AI models to the following question:\n\nQuestion: Q\n\nHere are the responses:\n\nOpenAI: foo".data
      "\n\nGrok: No response\n\nQwen: No response\n\nDeepSeek: No response".data
      ModelPrompts.enT6.data
      (by decide) (by simp [List.append_assoc])
  · rw [show ModelPrompts.get_summary_prompt "Q" [("openai", "foo")] "en"
        = "\nAnalyze and summarize the responses from four different AI models to the following question:\n\nQuestion: Q\n\nHere are the responses:\n\nOpenAI: foo"
          ++ ("\n\nGrok: No response\n\nQwen: No response\n\nDeepSeek: No response"
          ++ ModelPrompts.enT6) from rfl]
    simp only [String.data_append]
    exact infix_glue
      "\nAnalyze and summarize the responses from four different AI models to the following question:\n\nQuestion: Q\n\nHere are the responses:\n\nOpenAI: foo".data
      "\n\nGrok: No response\n\nQwen: No response\n\nDeepSeek: No response".data
      ModelPrompts.enT6.data
      (by decide) (by simp [List.append_assoc])
  · rw [show ModelPrompts.get_summary_prompt "Q" [("openai", "foo")] "en"
        = "\nAnalyze and summarize the responses from four different AI models to the following question:\n\nQuestion: Q\n\nHere are the responses:\n\nOpenAI: foo"
          ++ ("\n\nGrok: No response\n\nQwen: No response\n\nDeepSeek: No response"
          ++ ModelPrompts.enT6) from rfl]
    simp only [String.data_append]
    exact infix_glue
      "\nAnalyze and summarize the responses from four different AI models to the following question:\n\nQuestion: Q\n\nHere are the responses:\n\nOpenAI: foo".data
      "\n\nGrok: No response\n\nQwen: No response\n\nDeepSeek: No response".data
      ModelPrompts.enT6.data
      (by decide) (by simp [List.append_assoc])
  · rw [show ModelPrompts.get_summary_prompt "Q" [("openai", "foo")] "zh"
        = "\n分析并总结四个不同AI模型对以下问题的回答：\n\n问题：Q\n\n以下是各模型的回答：\n\nDeepSeek：无回应\n\nQwen：无回应\n\nDoubao：无回应\n\nGLM：无回应"
          ++ ModelPrompts.zhT6 from rfl]
    simp only [String.data_append]
    exact infix_glue []
      "\n分析并总结四个不同AI模型对以下问题的回答：\n\n问题：Q\n\n以下是各模型的回答：\n\nDeepSeek：无回应\n\nQwen：无回应\n\nDoubao：无回应\n\nGLM：无回应".data
      ModelPrompts.zhT6.data (by decide) (by simp [List.append_assoc])
  · rw [show ModelPrompts.get_summary_prompt "Q" [("openai", "foo")] "zh"
        = "\n分析并总结四个不同AI模型对以下问题的回答：\n\n问题：Q\n\n以下是各模型的回答：\n\nDeepSeek：无回应\n\nQwen：无回应\n\nDoubao：无回应\n\nGLM：无回应"
          ++ ModelPrompts.zhT6 from rfl]
    simp only [String.data_append]
    exact infix_glue []
      "\n分析并总结四个不同AI模型对以下问题的回答：\n\n问题：Q\n\n以下是各模型的回答：\n\nDeepSeek：无回应\n\nQwen：无回应\n\nDoubao：无回应\n\nGLM：无回应".data
      ModelPrompts.zhT6.data (by decide) (by simp [List.append_assoc])
